import Mathlib

/-!
Verification of the Cineon image decoder (`src/lib.rs`, `src/parser.rs`,
`src/header.rs`) against its natural-language specification.

The decoder is embedded shallowly.  A Rust byte slice `&[u8]` is a pointer and
a length; it is modelled by `ByteSlice`, an index function together with a
length, so that nom's `take`/`tag` and the slice threading of the source
translate directly.  Machine `u32` arithmetic is `Nat` with explicit
`% 2^32` where the source can overflow, fallible parsing returns
`Except CineonError`, and an `f32` field is kept as its raw 32-bit pattern (no
claim inspects float semantics).  Every parsing function mirrors the
corresponding Rust item and keeps its name.
-/

set_option maxRecDepth 4000

namespace Cineon

/-- `CineonError` (`lib.rs`): the closed error taxonomy of the decoder. -/
inductive CineonError
  | NotCineonImage
  | ParserError
  | StringConversion
  | OutputError
  deriving DecidableEq

/-- A byte slice `&[u8]`: the byte at each index, and the number of bytes.
Indices at or beyond `len` are out of bounds and are never read by the
parser. -/
structure ByteSlice where
  get : Nat → Nat
  len : Nat

/-- Advancing a slice past its first `c` bytes (the "remaining input" that nom
combinators return). -/
def ByteSlice.drop (s : ByteSlice) (c : Nat) : ByteSlice :=
  { get := fun i => s.get (i + c), len := s.len - c }

/-- The list of `c` bytes of `g` starting at index `i`. -/
def bytesFrom (g : Nat → Nat) : Nat → Nat → List Nat
  | _, 0 => []
  | i, c + 1 => g i :: bytesFrom g (i + 1) c

/-- The first `c` bytes of a slice as a list (the "consumed prefix" that nom
`take` returns); meaningful only when `c ≤ s.len`. -/
def ByteSlice.take (s : ByteSlice) (c : Nat) : List Nat :=
  bytesFrom s.get 0 c

/-- A slice viewing a concrete (short) byte list. -/
def sliceOfList (l : List Nat) : ByteSlice :=
  { get := fun i => l.getD i 0, len := l.length }

/-- `MAGIC_COOKIE` (`header.rs`). -/
def MAGIC_COOKIE : Nat := 0x802A5FD7

/-- `MAX_ELEMENTS` (`header.rs`): number of entries of the channel array. -/
def MAX_ELEMENTS : Nat := 8

/-- The byte sequence `MAGIC_COOKIE.to_be_bytes()`. -/
def magicBeBytes : List Nat := [0x80, 0x2a, 0x5f, 0xd7]

/-- `check_magick` (`parser.rs`): nom `tag(magick.to_be_bytes())`, so it
succeeds exactly when the input holds at least 4 bytes and they are the
big-endian magic bytes; any failure is mapped to `NotCineonImage`. -/
def check_magick (input : ByteSlice) : Except CineonError (ByteSlice × List Nat) :=
  if 4 ≤ input.len ∧ input.take 4 = magicBeBytes then
    .ok (input.drop 4, input.take 4)
  else
    .error .NotCineonImage

/-- `read_bytes` (`parser.rs`): nom `take(c)`; fails with `ParserError` when
fewer than `c` bytes remain. -/
def read_bytes (c : Nat) (input : ByteSlice) : Except CineonError (ByteSlice × List Nat) :=
  if c ≤ input.len then .ok (input.drop c, input.take c) else .error .ParserError

/-- UTF-8 continuation byte (`10xxxxxx`). -/
def isUtf8Cont (b : Nat) : Bool := 0x80 ≤ b && b ≤ 0xBF

/-- Validity of a byte sequence as UTF-8, the check performed by
`std::str::from_utf8` in `read_string` (RFC 3629: no overlongs, no surrogate
code points, maximum U+10FFFF). -/
def validUtf8 : List Nat → Bool
  | [] => true
  | b :: rest =>
    if b ≤ 0x7F then validUtf8 rest
    else if 0xC2 ≤ b && b ≤ 0xDF then
      match rest with
      | c1 :: r => isUtf8Cont c1 && validUtf8 r
      | [] => false
    else if b = 0xE0 then
      match rest with
      | c1 :: c2 :: r => (0xA0 ≤ c1 && c1 ≤ 0xBF) && isUtf8Cont c2 && validUtf8 r
      | _ => false
    else if 0xE1 ≤ b && b ≤ 0xEC then
      match rest with
      | c1 :: c2 :: r => isUtf8Cont c1 && isUtf8Cont c2 && validUtf8 r
      | _ => false
    else if b = 0xED then
      match rest with
      | c1 :: c2 :: r => (0x80 ≤ c1 && c1 ≤ 0x9F) && isUtf8Cont c2 && validUtf8 r
      | _ => false
    else if 0xEE ≤ b && b ≤ 0xEF then
      match rest with
      | c1 :: c2 :: r => isUtf8Cont c1 && isUtf8Cont c2 && validUtf8 r
      | _ => false
    else if b = 0xF0 then
      match rest with
      | c1 :: c2 :: c3 :: r =>
        (0x90 ≤ c1 && c1 ≤ 0xBF) && isUtf8Cont c2 && isUtf8Cont c3 && validUtf8 r
      | _ => false
    else if 0xF1 ≤ b && b ≤ 0xF3 then
      match rest with
      | c1 :: c2 :: c3 :: r => isUtf8Cont c1 && isUtf8Cont c2 && isUtf8Cont c3 && validUtf8 r
      | _ => false
    else if b = 0xF4 then
      match rest with
      | c1 :: c2 :: c3 :: r =>
        (0x80 ≤ c1 && c1 ≤ 0x8F) && isUtf8Cont c2 && isUtf8Cont c3 && validUtf8 r
      | _ => false
    else false

/-- `str.trim_matches(char::from(0))` on the decoded text: removes every
leading and every trailing NUL byte (both ends). -/
def trimNulls (l : List Nat) : List Nat :=
  ((l.dropWhile (· == 0)).reverse.dropWhile (· == 0)).reverse

/-- `read_string` (`parser.rs`): take `c` bytes, validate them as UTF-8 and
trim NUL padding; `ParserError` on truncation, `StringConversion` on invalid
text.  The decoded string is kept as its byte sequence. -/
def read_string (c : Nat) (input : ByteSlice) : Except CineonError (ByteSlice × List Nat) :=
  match read_bytes c input with
  | .ok (i, v) => if validUtf8 v then .ok (i, trimNulls v) else .error .StringConversion
  | .error e => .error e

/-- The two `ReadBytes` implementations (`BigEndian` / `LittleEndian`,
`parser.rs`), selected once by the top-level decoder. -/
inductive En
  | be
  | le
  deriving DecidableEq

/-- `read_u8`: one byte (identical in both byte orders, as `be_u8`/`le_u8`). -/
def read_u8 (_ : En) (input : ByteSlice) : Except CineonError (ByteSlice × Nat) :=
  if 1 ≤ input.len then .ok (input.drop 1, input.get 0) else .error .ParserError

/-- Big-endian 32-bit value of four bytes (`be_u32`). -/
def u32be (b0 b1 b2 b3 : Nat) : Nat := ((b0 * 256 + b1) * 256 + b2) * 256 + b3

/-- Little-endian 32-bit value of four bytes (`le_u32`). -/
def u32le (b0 b1 b2 b3 : Nat) : Nat := ((b3 * 256 + b2) * 256 + b1) * 256 + b0

/-- `read_u32`: four bytes in the selected byte order. -/
def read_u32 (en : En) (input : ByteSlice) : Except CineonError (ByteSlice × Nat) :=
  if 4 ≤ input.len then
    .ok (input.drop 4,
      match en with
      | .be => u32be (input.get 0) (input.get 1) (input.get 2) (input.get 3)
      | .le => u32le (input.get 0) (input.get 1) (input.get 2) (input.get 3))
  else
    .error .ParserError

/-- Two's-complement reading of a 32-bit pattern, for `read_i32`. -/
def toI32 (v : Nat) : Int := if v < 2 ^ 31 then (v : Int) else (v : Int) - 2 ^ 32

/-- `read_i32`: signed 32-bit value in the selected byte order. -/
def read_i32 (en : En) (input : ByteSlice) : Except CineonError (ByteSlice × Int) :=
  match read_u32 en input with
  | .ok (i, v) => .ok (i, toI32 v)
  | .error e => .error e

/-- `read_f32`: an f32 field is modelled by its raw 32-bit pattern read in the
selected byte order; no claim depends on float semantics. -/
def read_f32 (en : En) (input : ByteSlice) : Except CineonError (ByteSlice × Nat) :=
  read_u32 en input

/-- `read_u8_pair`: `pair(u8, u8)`. -/
def read_u8_pair (en : En) (input : ByteSlice) :
    Except CineonError (ByteSlice × (Nat × Nat)) := do
  let (i, a) ← read_u8 en input
  let (i, b) ← read_u8 en i
  .ok (i, (a, b))

/-- `read_f32_pair`: `pair(f32, f32)`. -/
def read_f32_pair (en : En) (input : ByteSlice) :
    Except CineonError (ByteSlice × (Nat × Nat)) := do
  let (i, a) ← read_f32 en input
  let (i, b) ← read_f32 en i
  .ok (i, (a, b))

/-- `FileInformation` (`header.rs`); text fields are kept as byte sequences. -/
structure FileInformation where
  magic_number : Nat
  image_offset : Nat
  generic_size : Nat
  industry_size : Nat
  user_size : Nat
  file_size : Nat
  version : List Nat
  filename : List Nat
  creation_date : List Nat
  creation_time : List Nat
  deriving DecidableEq

/-- `Interleave` (`header.rs`). -/
inductive Interleave
  | Pixel
  | Line
  | Channel
  | Undefined
  deriving DecidableEq

/-- `impl From<u8> for Interleave`. -/
def Interleave.fromU8 : Nat → Interleave
  | 0 => .Pixel
  | 1 => .Line
  | 2 => .Channel
  | _ => .Undefined

/-- `Packing` (`header.rs`). -/
inductive Packing
  | Packed
  | ByteLeft
  | ByteRight
  | WordLeft
  | WordRight
  | LongWordLeft
  | LongWordRight
  | PackAsManyAsPossible
  | Undefined
  deriving DecidableEq

/-- `impl From<u8> for Packing`. -/
def Packing.fromU8 : Nat → Packing
  | 0 => .Packed
  | 1 => .ByteLeft
  | 2 => .ByteRight
  | 3 => .WordLeft
  | 4 => .WordRight
  | 5 => .LongWordLeft
  | 6 => .LongWordRight
  | 7 => .PackAsManyAsPossible
  | _ => .Undefined

/-- `Orientation` (`header.rs`). -/
inductive Orientation
  | TopToBottomLeftToRight
  | TopToBottomRightToLeft
  | BottomToTopLeftToRight
  | BottomToTopRightToLeft
  | LeftToRightTopToBottom
  | RightToLeftTopToBottom
  | LeftToRightBottomToTop
  | RightToLeftBottomToTop
  | Undefined
  deriving DecidableEq

/-- `impl From<u8> for Orientation`. -/
def Orientation.fromU8 : Nat → Orientation
  | 0 => .TopToBottomLeftToRight
  | 1 => .TopToBottomRightToLeft
  | 2 => .BottomToTopLeftToRight
  | 3 => .BottomToTopRightToLeft
  | 4 => .LeftToRightTopToBottom
  | 5 => .RightToLeftTopToBottom
  | 6 => .LeftToRightBottomToTop
  | 7 => .RightToLeftBottomToTop
  | _ => .Undefined

/-- `ImageChannel` (`header.rs`); f32 calibration fields as raw patterns. -/
structure ImageChannel where
  designator : Nat × Nat
  bit_depth : Nat
  pixels_per_line : Nat
  lines_per_element : Nat
  min_data : Nat
  min_quantity : Nat
  max_data : Nat
  max_quantity : Nat
  deriving DecidableEq

/-- `ImageChannel::default()` (derived `Default`: all zero). -/
def ImageChannel.default : ImageChannel :=
  { designator := (0, 0), bit_depth := 0, pixels_per_line := 0, lines_per_element := 0,
    min_data := 0, min_quantity := 0, max_data := 0, max_quantity := 0 }

/-- `ImageInfo` (`header.rs`); the channel array is a list of 8 entries. -/
structure ImageInfo where
  image_orientation : Orientation
  number_of_elements : Nat
  channel : List ImageChannel
  white_point : Nat × Nat
  red_primary : Nat × Nat
  green_primary : Nat × Nat
  blue_primary : Nat × Nat
  label_text : List Nat
  deriving DecidableEq

/-- `DataFormatInfo` (`header.rs`). -/
structure DataFormatInfo where
  interleave : Interleave
  packing : Packing
  data_sign : Bool
  image_sense : Bool
  line_padding : Option Nat
  channel_padding : Option Nat
  deriving DecidableEq

/-- `OriginationInfo` (`header.rs`). -/
structure OriginationInfo where
  x_offset : Int
  y_offset : Int
  source_image_file_name : List Nat
  source_date : List Nat
  source_time : List Nat
  input_device : List Nat
  input_device_model_number : List Nat
  input_device_serial_number : List Nat
  x_device_pitch : Nat
  y_device_pitch : Nat
  gamma : Nat
  deriving DecidableEq

/-- `FilmInfo` (`header.rs`); the source field `prefix` is rendered as
`prefix_code` (`prefix` is reserved in Lean). -/
structure FilmInfo where
  film_manufacturing_id_code : Nat
  film_type : Nat
  perfs_offset : Nat
  prefix_code : Nat
  count : Nat
  format : List Nat
  frame_position : Nat
  frame_rate : Nat
  frame_id : List Nat
  slate_info : List Nat
  deriving DecidableEq

/-- `Header` (`header.rs`). -/
structure Header where
  file_info : FileInformation
  image_info : ImageInfo
  data_format_info : DataFormatInfo
  origination_info : OriginationInfo
  film_info : Option FilmInfo
  user_info : Option (List Nat)
  deriving DecidableEq

/-- `ImageData` (`lib.rs`). -/
structure ImageData where
  header : Header
  pixels : List Nat
  deriving DecidableEq

/-- `Cineon::is_cineon` (`lib.rs`): `check_magick(input, MAGIC_COOKIE).is_ok()`. -/
def is_cineon (input : ByteSlice) : Bool :=
  match check_magick input with
  | .ok _ => true
  | .error _ => false

/-- `Cineon::is_big_endian` (`lib.rs`): inspects the four matched magic bytes. -/
def is_big_endian (m : List Nat) : Bool :=
  m.getD 0 0 == 0x80 && m.getD 1 0 == 0x2a && m.getD 2 0 == 0x5f && m.getD 3 0 == 0xd7

/-- `Cineon::parse_file_info` (`lib.rs`). -/
def parse_file_info (en : En) (input : ByteSlice) :
    Except CineonError (ByteSlice × FileInformation) := do
  let (i, image_offset) ← read_u32 en input
  let (i, generic_size) ← read_u32 en i
  let (i, industry_size) ← read_u32 en i
  let (i, user_size) ← read_u32 en i
  let (i, file_size) ← read_u32 en i
  let (i, version) ← read_string 8 i
  let (i, filename) ← read_string 100 i
  let (i, creation_date) ← read_string 12 i
  let (i, creation_time) ← read_string 12 i
  let (i, _) ← read_bytes 36 i
  .ok (i, { magic_number := MAGIC_COOKIE, image_offset, generic_size, industry_size,
            user_size, file_size, version, filename, creation_date, creation_time })

/-- One iteration of the channel loop in `Cineon::parse_image_info`. -/
def parse_channel (en : En) (input : ByteSlice) :
    Except CineonError (ByteSlice × ImageChannel) := do
  let (i, designator) ← read_u8_pair en input
  let (i, bit_depth) ← read_u8 en i
  let (i, _) ← read_bytes 1 i
  let (i, pixels_per_line) ← read_u32 en i
  let (i, lines_per_element) ← read_u32 en i
  let (i, min_data) ← read_f32 en i
  let (i, min_quantity) ← read_f32 en i
  let (i, max_data) ← read_f32 en i
  let (i, max_quantity) ← read_f32 en i
  .ok (i, { designator, bit_depth, pixels_per_line, lines_per_element,
            min_data, min_quantity, max_data, max_quantity })

/-- The channel loop of `Cineon::parse_image_info`: `n` consecutive channels. -/
def parse_channels (en : En) : Nat → ByteSlice →
    Except CineonError (ByteSlice × List ImageChannel)
  | 0, input => .ok (input, [])
  | n + 1, input => do
    let (i, c) ← parse_channel en input
    let (i, cs) ← parse_channels en n i
    .ok (i, c :: cs)

/-- `Cineon::parse_image_info` (`lib.rs`). -/
def parse_image_info (en : En) (input : ByteSlice) :
    Except CineonError (ByteSlice × ImageInfo) := do
  let (i, image_orientation) ← read_u8 en input
  let (i, number_of_elements) ← read_u8 en i
  let (i, _) ← read_bytes 2 i
  let (i, channel) ← parse_channels en MAX_ELEMENTS i
  let (i, white_point) ← read_f32_pair en i
  let (i, red_primary) ← read_f32_pair en i
  let (i, green_primary) ← read_f32_pair en i
  let (i, blue_primary) ← read_f32_pair en i
  let (i, label_text) ← read_string 200 i
  let (i, _) ← read_bytes 28 i
  .ok (i, { image_orientation := Orientation.fromU8 image_orientation,
            number_of_elements, channel, white_point, red_primary, green_primary,
            blue_primary, label_text })

/-- `Cineon::parse_data_format_info` (`lib.rs`). -/
def parse_data_format_info (en : En) (input : ByteSlice) :
    Except CineonError (ByteSlice × DataFormatInfo) := do
  let (i, interleave) ← read_u8 en input
  let (i, packing) ← read_u8 en i
  let (i, data_sign) ← read_u8 en i
  let (i, image_sense) ← read_u8 en i
  let (i, line_padding) ← read_u32 en i
  let (i, channel_padding) ← read_u32 en i
  let (i, _) ← read_bytes 20 i
  .ok (i, { interleave := Interleave.fromU8 interleave, packing := Packing.fromU8 packing,
            data_sign := data_sign ≠ 0, image_sense := image_sense ≠ 0,
            line_padding := some line_padding, channel_padding := some channel_padding })

/-- `Cineon::parse_origination_info` (`lib.rs`). -/
def parse_origination_info (en : En) (input : ByteSlice) :
    Except CineonError (ByteSlice × OriginationInfo) := do
  let (i, x_offset) ← read_i32 en input
  let (i, y_offset) ← read_i32 en i
  let (i, source_image_file_name) ← read_string 100 i
  let (i, source_date) ← read_string 12 i
  let (i, source_time) ← read_string 12 i
  let (i, input_device) ← read_string 64 i
  let (i, input_device_model_number) ← read_string 32 i
  let (i, input_device_serial_number) ← read_string 32 i
  let (i, x_device_pitch) ← read_f32 en i
  let (i, y_device_pitch) ← read_f32 en i
  let (i, gamma) ← read_f32 en i
  let (i, _) ← read_bytes 40 i
  .ok (i, { x_offset, y_offset, source_image_file_name, source_date, source_time,
            input_device, input_device_model_number, input_device_serial_number,
            x_device_pitch, y_device_pitch, gamma })

/-- `Cineon::parse_film_info` (`lib.rs`). -/
def parse_film_info (en : En) (input : ByteSlice) :
    Except CineonError (ByteSlice × FilmInfo) := do
  let (i, film_manufacturing_id_code) ← read_u8 en input
  let (i, film_type) ← read_u8 en i
  let (i, perfs_offset) ← read_u8 en i
  let (i, _) ← read_bytes 1 i
  let (i, prefix_code) ← read_u32 en i
  let (i, count) ← read_u32 en i
  let (i, format) ← read_string 32 i
  let (i, frame_position) ← read_u32 en i
  let (i, frame_rate) ← read_f32 en i
  let (i, frame_id) ← read_string 32 i
  let (i, slate_info) ← read_string 200 i
  let (i, _) ← read_bytes 740 i
  .ok (i, { film_manufacturing_id_code, film_type, perfs_offset, prefix_code, count,
            format, frame_position, frame_rate, frame_id, slate_info })

/-- `Cineon::parse_header_inner` (`lib.rs`): magic check, endianness selection,
sequential section decode and the conditional film-info / user-info regions. -/
def parse_header_inner (input : ByteSlice) : Except CineonError (ByteSlice × Header) := do
  let (i, magick_number) ← check_magick input
  let en : En := if is_big_endian magick_number then .be else .le
  let (i, file_info) ← parse_file_info en i
  let (i, image_info) ← parse_image_info en i
  let (i, data_format_info) ← parse_data_format_info en i
  let (i, origination_info) ← parse_origination_info en i
  let (i, film_info) ←
    if 2048 < file_info.image_offset ∧ file_info.user_size ≠ 0 then do
      let (i, f) ← parse_film_info en i
      pure (i, some f)
    else do
      let (i, _) ← read_bytes 1024 i
      pure (i, (none : Option FilmInfo))
  let (i, user_info) ←
    if 2048 < file_info.image_offset ∧ file_info.user_size ≠ 0 then do
      let (i, u) ← read_bytes file_info.user_size i
      pure (i, some u)
    else
      pure (i, (none : Option (List Nat)))
  .ok (i, { file_info, image_info, data_format_info, origination_info,
            film_info, user_info })

/-- `Cineon::parse_header` (`lib.rs`): `parse_header_inner(input).map(|(_, v)| v)`. -/
def parse_header (input : ByteSlice) : Except CineonError Header :=
  match parse_header_inner input with
  | .ok (_, v) => .ok v
  | .error e => .error e

/-- 32-bit wrapping multiplication (release-mode `u32` semantics). -/
def mul32 (a b : Nat) : Nat := a * b % 4294967296

/-- 32-bit wrapping addition (release-mode `u32` semantics). -/
def add32 (a b : Nat) : Nat := (a + b) % 4294967296

/-- `Cineon::bytes_per_row` (`lib.rs`), with every `u32` operation wrapping. -/
def bytes_per_row (samples_per_pixel bit_depth width : Nat) (pad : Bool) : Nat :=
  match bit_depth with
  | 1 | 8 | 32 =>
    mul32 4 ((add32 (mul32 (mul32 samples_per_pixel width) bit_depth) 31) / 32)
  | 10 =>
    if !pad then
      mul32 4 ((add32 (mul32 (mul32 samples_per_pixel width) bit_depth) 31) / 32)
    else
      mul32 4 ((add32 (mul32 32 ((add32 (mul32 samples_per_pixel width) 2) / 3)) 31) / 32)
  | 12 =>
    if !pad then
      mul32 4 ((add32 (mul32 (mul32 samples_per_pixel width) bit_depth) 31) / 32)
    else
      mul32 2 ((add32 (mul32 (mul32 16 samples_per_pixel) width) 15) / 16)
  | 16 => mul32 2 ((add32 (mul32 (mul32 samples_per_pixel width) 16) 8) / 16)
  | 64 => mul32 8 ((add32 (mul32 (mul32 samples_per_pixel width) 64) 63) / 64)
  | _ =>
    mul32 4 ((add32 (mul32 (mul32 samples_per_pixel width) bit_depth) 31) / 32)

/-- `Cineon::parse_image` (`lib.rs`): header, row-size computation from channel
0, then extraction of `lines_per_element * bytes_per_row` payload bytes. -/
def parse_image (input : ByteSlice) : Except CineonError ImageData := do
  let (i, header) ← parse_header_inner input
  let ch0 := header.image_info.channel.headD ImageChannel.default
  let image_height := ch0.lines_per_element
  let bpr :=
    if header.image_info.number_of_elements = 1 then
      bytes_per_row 1 ch0.bit_depth ch0.pixels_per_line true
    else
      bytes_per_row 3 ch0.bit_depth ch0.pixels_per_line true
  let total_bytes := mul32 image_height bpr
  let (_, pixels) ← read_bytes total_bytes i
  .ok { header, pixels }

/-- `FileInformation::default()` (derived). -/
def FileInformation.default : FileInformation :=
  { magic_number := 0, image_offset := 0, generic_size := 0, industry_size := 0,
    user_size := 0, file_size := 0, version := [], filename := [],
    creation_date := [], creation_time := [] }

/-- `ImageInfo::default()` (`header.rs`, manual impl). -/
def ImageInfo.default : ImageInfo :=
  { image_orientation := .Undefined, number_of_elements := 1,
    channel := List.replicate MAX_ELEMENTS ImageChannel.default,
    white_point := (0, 0), red_primary := (0, 0), green_primary := (0, 0),
    blue_primary := (0, 0), label_text := [] }

/-- `DataFormatInfo::default()` (`header.rs`, manual impl). -/
def DataFormatInfo.default : DataFormatInfo :=
  { interleave := .Undefined, packing := .Undefined, data_sign := false,
    image_sense := false, line_padding := none, channel_padding := none }

/-- `OriginationInfo::default()` (derived). -/
def OriginationInfo.default : OriginationInfo :=
  { x_offset := 0, y_offset := 0, source_image_file_name := [], source_date := [],
    source_time := [], input_device := [], input_device_model_number := [],
    input_device_serial_number := [], x_device_pitch := 0, y_device_pitch := 0,
    gamma := 0 }

/-- `Header::default()` (derived). -/
def Header.default : Header :=
  { file_info := .default, image_info := .default, data_format_info := .default,
    origination_info := .default, film_info := none, user_info := none }

/-- Extract the header of a successful parse (used to name concrete results). -/
def headerOf : Except CineonError Header → Header
  | .ok h => h
  | .error _ => Header.default

/-- Extract the image data of a successful parse. -/
def imageOf : Except CineonError ImageData → ImageData
  | .ok d => d
  | .error _ => { header := Header.default, pixels := [] }

/-- Extract the decoded text of a successful `read_string`. -/
def stringOf : Except CineonError (ByteSlice × List Nat) → List Nat
  | .ok (_, v) => v
  | .error _ => []

/-- A minimal all-default file: big-endian magic followed by 2044 zero bytes
(2048 bytes, exactly the fixed header region with `image_offset = 0` and
`user_size = 0`). -/
def zeroBuf : ByteSlice :=
  { get := fun i =>
      if i = 0 then 0x80 else if i = 1 then 0x2a else if i = 2 then 0x5f
      else if i = 3 then 0xd7 else 0,
    len := 2048 }

/-- The header decoded from `zeroBuf`. -/
def zeroHdr : Header := headerOf (parse_header zeroBuf)

/-- A file declaring `image_offset = 2049` (big-endian bytes `00 00 08 01` at
offset 4) and `user_size = 1` (byte `01` at offset 19), otherwise zero,
followed by one user byte `0x2a` at offset 2048: 2049 bytes in total. -/
def userBuf : ByteSlice :=
  { get := fun i =>
      if i = 0 then 0x80 else if i = 1 then 0x2a else if i = 2 then 0x5f
      else if i = 3 then 0xd7 else if i = 6 then 8 else if i = 7 then 1
      else if i = 19 then 1 else if i = 2048 then 0x2a else 0,
    len := 2049 }

/-- The header decoded from `userBuf`. -/
def userHdr : Header := headerOf (parse_header userBuf)

/-- The minimal synthetic little-endian buffer of the end-to-end property:
little-endian magic `d7 5f 2a 80`, `image_offset = 2048` (bytes `00 08 00 00`
at offset 4), `number_of_elements = 1` (offset 193), `bit_depth = 8`
(offset 198), `pixels_per_line = 2` (offset 200), `lines_per_element = 1`
(offset 204), `user_size = 0`, all other header bytes zero, then exactly 4
payload bytes `01 02 03 04`: 2052 bytes in total. -/
def leSyntheticBuf : ByteSlice :=
  { get := fun i =>
      if i = 0 then 0xd7 else if i = 1 then 0x5f else if i = 2 then 0x2a
      else if i = 3 then 0x80 else if i = 5 then 8 else if i = 193 then 1
      else if i = 198 then 8 else if i = 200 then 2 else if i = 204 then 1
      else if i = 2048 then 1 else if i = 2049 then 2 else if i = 2050 then 3
      else if i = 2051 then 4 else 0,
    len := 2052 }

/-- The same synthetic file with the magic and every multi-byte field encoded
big-endian instead (`image_offset` bytes at 4..7, `pixels_per_line` at
200..203, `lines_per_element` at 204..207). -/
def beSyntheticBuf : ByteSlice :=
  { get := fun i =>
      if i = 0 then 0x80 else if i = 1 then 0x2a else if i = 2 then 0x5f
      else if i = 3 then 0xd7 else if i = 6 then 8 else if i = 193 then 1
      else if i = 198 then 8 else if i = 203 then 2 else if i = 207 then 1
      else if i = 2048 then 1 else if i = 2049 then 2 else if i = 2050 then 3
      else if i = 2051 then 4 else 0,
    len := 2052 }

/-- Ceiling division, as written in the specification's row-size formulas. -/
def ceilDiv (a b : Nat) : Nat := (a + b - 1) / b

/-- The specification's padded bit-depth-10 row-size formula,
`4 * ceil(32 * ceil(samples*width/3) / 32)`, stated with exact arithmetic. -/
def specRowSize10 (samples width : Nat) : Nat :=
  4 * ceilDiv (32 * ceilDiv (samples * width) 3) 32

/-- The specification's bit-depth-16 row-size formula,
`2 * ceil((samples*width*16 + 8) / 16)` with ceiling division, as claimed. -/
def specRowSize16 (samples width : Nat) : Nat :=
  2 * ceilDiv (samples * width * 16 + 8) 16

/-- Trailing-only NUL trimming, the behaviour the specification ascribes to
fixed-width text decoding. -/
def trimTrailingZeros (l : List Nat) : List Nat :=
  (l.reverse.dropWhile (· == 0)).reverse

end Cineon

namespace Cineon

/-- `Except.ok` on a `Bool` test of success (used to state concrete results). -/
def isOkE {α : Type} : Except CineonError α → Bool
  | .ok _ => true
  | .error _ => false

/-- Inversion of monadic sequencing in the `Except` monad. -/
theorem bind_eq_ok {α β : Type} {x : Except CineonError α}
    {f : α → Except CineonError β} {b : β}
    (h : x >>= f = .ok b) : ∃ a, x = .ok a ∧ f a = .ok b := by
  cases x with
  | ok a => exact ⟨a, rfl, h⟩
  | error e => exact absurd h (by simp [Bind.bind, Except.bind])

/-- `bytesFrom` produces exactly the requested number of bytes. -/
theorem bytesFrom_length (g : Nat → Nat) : ∀ (c i : Nat), (bytesFrom g i c).length = c
  | 0, _ => rfl
  | c + 1, i => by simp [bytesFrom, bytesFrom_length g c]

/-- A successful `check_magick` consumed exactly 4 bytes. -/
theorem check_magick_ok {s r : ByteSlice} {v : List Nat}
    (h : check_magick s = .ok (r, v)) : s.len = r.len + 4 := by
  unfold check_magick at h
  split at h
  · next hc =>
    simp only [Except.ok.injEq, Prod.mk.injEq] at h
    obtain ⟨h1, _⟩ := h
    subst h1
    simp only [ByteSlice.drop]
    omega
  · simp at h

/-- A successful `read_bytes c` consumed exactly `c` bytes and returned them. -/
theorem read_bytes_ok {c : Nat} {s r : ByteSlice} {v : List Nat}
    (h : read_bytes c s = .ok (r, v)) : s.len = r.len + c ∧ v.length = c := by
  unfold read_bytes at h
  split at h
  · next hc =>
    simp only [Except.ok.injEq, Prod.mk.injEq] at h
    obtain ⟨h1, h2⟩ := h
    subst h1
    subst h2
    refine ⟨?_, bytesFrom_length _ _ _⟩
    simp only [ByteSlice.drop]
    omega
  · simp at h

/-- A successful `read_string c` consumed exactly `c` bytes. -/
theorem read_string_ok {c : Nat} {s r : ByteSlice} {v : List Nat}
    (h : read_string c s = .ok (r, v)) : s.len = r.len + c := by
  unfold read_string at h
  cases hb : read_bytes c s with
  | error e => rw [hb] at h; simp at h
  | ok p =>
    obtain ⟨r2, v2⟩ := p
    rw [hb] at h
    dsimp only at h
    split at h
    · simp only [Except.ok.injEq, Prod.mk.injEq] at h
      obtain ⟨h1, _⟩ := h
      subst h1
      exact (read_bytes_ok hb).1
    · simp at h

/-- A successful `read_u8` consumed exactly 1 byte. -/
theorem read_u8_ok {en : En} {s r : ByteSlice} {v : Nat}
    (h : read_u8 en s = .ok (r, v)) : s.len = r.len + 1 := by
  unfold read_u8 at h
  split at h
  · next hc =>
    simp only [Except.ok.injEq, Prod.mk.injEq] at h
    obtain ⟨h1, _⟩ := h
    subst h1
    simp only [ByteSlice.drop]
    omega
  · simp at h

/-- A successful `read_u32` consumed exactly 4 bytes. -/
theorem read_u32_ok {en : En} {s r : ByteSlice} {v : Nat}
    (h : read_u32 en s = .ok (r, v)) : s.len = r.len + 4 := by
  unfold read_u32 at h
  split at h
  · next hc =>
    simp only [Except.ok.injEq, Prod.mk.injEq] at h
    obtain ⟨h1, _⟩ := h
    subst h1
    simp only [ByteSlice.drop]
    omega
  · simp at h

/-- A successful `read_i32` consumed exactly 4 bytes. -/
theorem read_i32_ok {en : En} {s r : ByteSlice} {v : Int}
    (h : read_i32 en s = .ok (r, v)) : s.len = r.len + 4 := by
  unfold read_i32 at h
  cases hu : read_u32 en s with
  | error e => rw [hu] at h; simp at h
  | ok p =>
    obtain ⟨r2, v2⟩ := p
    rw [hu] at h
    dsimp only at h
    simp only [Except.ok.injEq, Prod.mk.injEq] at h
    obtain ⟨h1, _⟩ := h
    subst h1
    exact read_u32_ok hu

/-- A successful `read_f32` consumed exactly 4 bytes. -/
theorem read_f32_ok {en : En} {s r : ByteSlice} {v : Nat}
    (h : read_f32 en s = .ok (r, v)) : s.len = r.len + 4 :=
  read_u32_ok h

/-- A successful `read_u8_pair` consumed exactly 2 bytes. -/
theorem read_u8_pair_ok {en : En} {s r : ByteSlice} {v : Nat × Nat}
    (h : read_u8_pair en s = .ok (r, v)) : s.len = r.len + 2 := by
  unfold read_u8_pair at h
  obtain ⟨⟨i1, a⟩, h1, h⟩ := bind_eq_ok h
  obtain ⟨⟨i2, b⟩, h2, h⟩ := bind_eq_ok h
  simp only [Except.ok.injEq, Prod.mk.injEq] at h
  obtain ⟨h3, _⟩ := h
  subst h3
  have l1 := read_u8_ok h1
  have l2 := read_u8_ok h2
  omega

/-- A successful `read_f32_pair` consumed exactly 8 bytes. -/
theorem read_f32_pair_ok {en : En} {s r : ByteSlice} {v : Nat × Nat}
    (h : read_f32_pair en s = .ok (r, v)) : s.len = r.len + 8 := by
  unfold read_f32_pair at h
  obtain ⟨⟨i1, a⟩, h1, h⟩ := bind_eq_ok h
  obtain ⟨⟨i2, b⟩, h2, h⟩ := bind_eq_ok h
  simp only [Except.ok.injEq, Prod.mk.injEq] at h
  obtain ⟨h3, _⟩ := h
  subst h3
  have l1 := read_f32_ok h1
  have l2 := read_f32_ok h2
  omega

end Cineon

namespace Cineon

/-- A successful `parse_file_info` consumed exactly 188 bytes and stamped the
magic-cookie constant into the record. -/
theorem parse_file_info_ok {en : En} {s r : ByteSlice} {fi : FileInformation}
    (h : parse_file_info en s = .ok (r, fi)) :
    s.len = r.len + 188 ∧ fi.magic_number = MAGIC_COOKIE := by
  unfold parse_file_info at h
  obtain ⟨⟨i1, v1⟩, h1, h⟩ := bind_eq_ok h
  obtain ⟨⟨i2, v2⟩, h2, h⟩ := bind_eq_ok h
  obtain ⟨⟨i3, v3⟩, h3, h⟩ := bind_eq_ok h
  obtain ⟨⟨i4, v4⟩, h4, h⟩ := bind_eq_ok h
  obtain ⟨⟨i5, v5⟩, h5, h⟩ := bind_eq_ok h
  obtain ⟨⟨i6, v6⟩, h6, h⟩ := bind_eq_ok h
  obtain ⟨⟨i7, v7⟩, h7, h⟩ := bind_eq_ok h
  obtain ⟨⟨i8, v8⟩, h8, h⟩ := bind_eq_ok h
  obtain ⟨⟨i9, v9⟩, h9, h⟩ := bind_eq_ok h
  obtain ⟨⟨i10, v10⟩, h10, h⟩ := bind_eq_ok h
  simp only [Except.ok.injEq, Prod.mk.injEq] at h
  obtain ⟨hr, hfi⟩ := h
  subst hr
  subst hfi
  have l1 := read_u32_ok h1
  have l2 := read_u32_ok h2
  have l3 := read_u32_ok h3
  have l4 := read_u32_ok h4
  have l5 := read_u32_ok h5
  have l6 := read_string_ok h6
  have l7 := read_string_ok h7
  have l8 := read_string_ok h8
  have l9 := read_string_ok h9
  have l10 := (read_bytes_ok h10).1
  exact ⟨by omega, rfl⟩

/-- A successful `parse_channel` consumed exactly 28 bytes. -/
theorem parse_channel_ok {en : En} {s r : ByteSlice} {c : ImageChannel}
    (h : parse_channel en s = .ok (r, c)) : s.len = r.len + 28 := by
  unfold parse_channel at h
  obtain ⟨⟨i1, v1⟩, h1, h⟩ := bind_eq_ok h
  obtain ⟨⟨i2, v2⟩, h2, h⟩ := bind_eq_ok h
  obtain ⟨⟨i3, v3⟩, h3, h⟩ := bind_eq_ok h
  obtain ⟨⟨i4, v4⟩, h4, h⟩ := bind_eq_ok h
  obtain ⟨⟨i5, v5⟩, h5, h⟩ := bind_eq_ok h
  obtain ⟨⟨i6, v6⟩, h6, h⟩ := bind_eq_ok h
  obtain ⟨⟨i7, v7⟩, h7, h⟩ := bind_eq_ok h
  obtain ⟨⟨i8, v8⟩, h8, h⟩ := bind_eq_ok h
  obtain ⟨⟨i9, v9⟩, h9, h⟩ := bind_eq_ok h
  simp only [Except.ok.injEq, Prod.mk.injEq] at h
  obtain ⟨hr, _⟩ := h
  subst hr
  have l1 := read_u8_pair_ok h1
  have l2 := read_u8_ok h2
  have l3 := (read_bytes_ok h3).1
  have l4 := read_u32_ok h4
  have l5 := read_u32_ok h5
  have l6 := read_f32_ok h6
  have l7 := read_f32_ok h7
  have l8 := read_f32_ok h8
  have l9 := read_f32_ok h9
  omega

/-- A successful `parse_channels` for `n` channels consumed exactly `28 * n`
bytes. -/
theorem parse_channels_ok {en : En} :
    ∀ {n : Nat} {s r : ByteSlice} {cs : List ImageChannel},
      parse_channels en n s = .ok (r, cs) → s.len = r.len + 28 * n := by
  intro n
  induction n with
  | zero =>
    intro s r cs h
    unfold parse_channels at h
    simp only [Except.ok.injEq, Prod.mk.injEq] at h
    obtain ⟨hr, _⟩ := h
    subst hr
    omega
  | succ n ih =>
    intro s r cs h
    unfold parse_channels at h
    obtain ⟨⟨i1, c⟩, h1, h⟩ := bind_eq_ok h
    obtain ⟨⟨i2, cs2⟩, h2, h⟩ := bind_eq_ok h
    simp only [Except.ok.injEq, Prod.mk.injEq] at h
    obtain ⟨hr, _⟩ := h
    subst hr
    have l1 := parse_channel_ok h1
    have l2 := ih h2
    omega

/-- A successful `parse_image_info` consumed exactly 488 bytes. -/
theorem parse_image_info_ok {en : En} {s r : ByteSlice} {ii : ImageInfo}
    (h : parse_image_info en s = .ok (r, ii)) : s.len = r.len + 488 := by
  unfold parse_image_info at h
  obtain ⟨⟨i1, v1⟩, h1, h⟩ := bind_eq_ok h
  obtain ⟨⟨i2, v2⟩, h2, h⟩ := bind_eq_ok h
  obtain ⟨⟨i3, v3⟩, h3, h⟩ := bind_eq_ok h
  obtain ⟨⟨i4, v4⟩, h4, h⟩ := bind_eq_ok h
  obtain ⟨⟨i5, v5⟩, h5, h⟩ := bind_eq_ok h
  obtain ⟨⟨i6, v6⟩, h6, h⟩ := bind_eq_ok h
  obtain ⟨⟨i7, v7⟩, h7, h⟩ := bind_eq_ok h
  obtain ⟨⟨i8, v8⟩, h8, h⟩ := bind_eq_ok h
  obtain ⟨⟨i9, v9⟩, h9, h⟩ := bind_eq_ok h
  obtain ⟨⟨i10, v10⟩, h10, h⟩ := bind_eq_ok h
  simp only [Except.ok.injEq, Prod.mk.injEq] at h
  obtain ⟨hr, _⟩ := h
  subst hr
  have l1 := read_u8_ok h1
  have l2 := read_u8_ok h2
  have l3 := (read_bytes_ok h3).1
  have l4 := parse_channels_ok h4
  have l5 := read_f32_pair_ok h5
  have l6 := read_f32_pair_ok h6
  have l7 := read_f32_pair_ok h7
  have l8 := read_f32_pair_ok h8
  have l9 := read_string_ok h9
  have l10 := (read_bytes_ok h10).1
  simp only [MAX_ELEMENTS] at l4
  omega

end Cineon


namespace Cineon

/-- Structural facts about any successful `parse_header_inner` run: the stamped
magic number, a lower bound on the input length (magic + file info + image
info alone consume 680 bytes), and the two branches of the film-info /
user-info guard. -/
theorem parse_header_inner_facts {input r : ByteSlice} {h : Header}
    (hp : parse_header_inner input = .ok (r, h)) :
    h.file_info.magic_number = MAGIC_COOKIE ∧
    680 ≤ input.len ∧
    ((2048 < h.file_info.image_offset ∧ h.file_info.user_size ≠ 0) →
      (∃ f, h.film_info = some f) ∧
        ∃ u, h.user_info = some u ∧ u.length = h.file_info.user_size) ∧
    ((h.file_info.image_offset ≤ 2048 ∨ h.file_info.user_size = 0) →
      h.film_info = none ∧ h.user_info = none) := by
  unfold parse_header_inner at hp
  obtain ⟨⟨i1, m⟩, h1, hp⟩ := bind_eq_ok hp
  obtain ⟨⟨i2, fi⟩, h2, hp⟩ := bind_eq_ok hp
  obtain ⟨⟨i3, ii⟩, h3, hp⟩ := bind_eq_ok hp
  obtain ⟨⟨i4, dfi⟩, h4, hp⟩ := bind_eq_ok hp
  obtain ⟨⟨i5, oi⟩, h5, hp⟩ := bind_eq_ok hp
  dsimp only at hp
  by_cases hC : 2048 < fi.image_offset ∧ fi.user_size ≠ 0
  · simp only [if_pos hC] at hp
    obtain ⟨⟨i6, f⟩, hfilm, hp⟩ := bind_eq_ok hp
    obtain ⟨y1, hy1, hp⟩ := bind_eq_ok hp
    simp only [pure, Except.pure, Except.ok.injEq] at hy1
    subst hy1
    obtain ⟨⟨i7, u⟩, hu, hp⟩ := bind_eq_ok hp
    obtain ⟨y2, hy2, hp⟩ := bind_eq_ok hp
    simp only [pure, Except.pure, Except.ok.injEq] at hy2
    subst hy2
    simp only [Except.ok.injEq, Prod.mk.injEq] at hp
    obtain ⟨hr, hh⟩ := hp
    subst hh
    refine ⟨(parse_file_info_ok h2).2, ?_, ?_, ?_⟩
    · have l1 := check_magick_ok h1
      have l2 := (parse_file_info_ok h2).1
      have l3 := parse_image_info_ok h3
      omega
    · intro _
      exact ⟨⟨f, rfl⟩, u, rfl, (read_bytes_ok hu).2⟩
    · intro hcond
      have hcond2 : fi.image_offset ≤ 2048 ∨ fi.user_size = 0 := hcond
      rcases hcond2 with hle | hz
      · exact absurd hC.1 (Nat.not_lt.mpr hle)
      · exact absurd hz hC.2
  · simp only [if_neg hC] at hp
    obtain ⟨⟨i6, sk⟩, hsk, hp⟩ := bind_eq_ok hp
    obtain ⟨y1, hy1, hp⟩ := bind_eq_ok hp
    simp only [pure, Except.pure, Except.ok.injEq] at hy1
    subst hy1
    obtain ⟨y2, hy2, hp⟩ := bind_eq_ok hp
    simp only [pure, Except.pure, Except.ok.injEq] at hy2
    subst hy2
    simp only [Except.ok.injEq, Prod.mk.injEq] at hp
    obtain ⟨hr, hh⟩ := hp
    subst hh
    refine ⟨(parse_file_info_ok h2).2, ?_, ?_, ?_⟩
    · have l1 := check_magick_ok h1
      have l2 := (parse_file_info_ok h2).1
      have l3 := parse_image_info_ok h3
      omega
    · intro hcond
      exact absurd (show 2048 < fi.image_offset ∧ fi.user_size ≠ 0 from hcond) hC
    · intro _
      exact ⟨rfl, rfl⟩

/-- A successful `parse_header` comes from a successful `parse_header_inner`. -/
theorem parse_header_ok_inner {input : ByteSlice} {h : Header}
    (hp : parse_header input = .ok h) :
    ∃ r, parse_header_inner input = .ok (r, h) := by
  unfold parse_header at hp
  cases hi : parse_header_inner input with
  | error e => rw [hi] at hp; simp at hp
  | ok p =>
    obtain ⟨r, v⟩ := p
    rw [hi] at hp
    dsimp only at hp
    simp only [Except.ok.injEq] at hp
    subst hp
    exact ⟨r, rfl⟩

end Cineon

namespace Cineon

/-- Claim C1 (code bug at `check_magick`): `is_cineon` is NOT true for both
byte orders of the magic cookie.  `check_magick` nom-`tag`s only
`MAGIC_COOKIE.to_be_bytes()`, so the byte-reversed little-endian form
`d7 5f 2a 80` is rejected while the big-endian form `80 2a 5f d7` is accepted
— even though `parse_header_inner` contains a (dead) little-endian branch. -/
theorem is_cineon_big_endian_only :
    is_cineon (sliceOfList [0xd7, 0x5f, 0x2a, 0x80]) = false ∧
    is_cineon (sliceOfList [0x80, 0x2a, 0x5f, 0xd7]) = true :=
  ⟨by decide, by decide⟩

/-- Claim C2 (code bug at `check_magick`): the minimal synthetic little-endian
buffer (correct little-endian magic, `number_of_elements = 1`,
`pixels_per_line = 2`, `lines_per_element = 1`, `bit_depth = 8`,
`image_offset = 2048`, `user_size = 0`, 4 payload bytes) is rejected as
`NotCineonImage` by `parse_image` instead of yielding a 4-byte payload,
because the magic check only accepts the big-endian byte order. -/
theorem parse_image_rejects_little_endian_synthetic :
    parse_image leSyntheticBuf = .error .NotCineonImage := rfl

/-- The same synthetic file encoded big-endian parses successfully and yields
exactly the 4 payload bytes, confirming that everything in the end-to-end
property except the byte-order acceptance matches the code. -/
theorem parse_image_big_endian_synthetic_ok :
    parse_image beSyntheticBuf = .ok (imageOf (parse_image beSyntheticBuf)) ∧
    (imageOf (parse_image beSyntheticBuf)).pixels = [1, 2, 3, 4] :=
  ⟨rfl, rfl⟩

/-- Claim C3: for every input on which `parse_header` succeeds with decoded
`image_offset ≤ 2048` or `user_size = 0`, the returned header has film info
and user info both absent, whatever bytes the skipped film region held. -/
theorem parse_header_guard_false_absent (input : ByteSlice) (h : Header)
    (hp : parse_header input = .ok h)
    (hc : h.file_info.image_offset ≤ 2048 ∨ h.file_info.user_size = 0) :
    h.film_info = none ∧ h.user_info = none := by
  obtain ⟨r, hinner⟩ := parse_header_ok_inner hp
  exact (parse_header_inner_facts hinner).2.2.2 hc

/-- Witness for C3: the all-default 2048-byte file decodes with
`image_offset = 0` and `user_size = 0`, and indeed carries no film or user
info. -/
theorem parse_header_guard_false_absent_witness :
    zeroHdr.film_info = none ∧ zeroHdr.user_info = none :=
  parse_header_guard_false_absent zeroBuf zeroHdr rfl (Or.inr rfl)

/-- Claim C4: for every input on which `parse_header` succeeds with decoded
`image_offset > 2048` and `user_size ≠ 0`, the returned header has film info
present and user info present with byte length exactly `user_size`. -/
theorem parse_header_user_info_length (input : ByteSlice) (h : Header)
    (hp : parse_header input = .ok h)
    (h1 : 2048 < h.file_info.image_offset)
    (h2 : h.file_info.user_size ≠ 0) :
    (∃ f, h.film_info = some f) ∧
      ∃ u, h.user_info = some u ∧ u.length = h.file_info.user_size := by
  obtain ⟨r, hinner⟩ := parse_header_ok_inner hp
  exact (parse_header_inner_facts hinner).2.2.1 ⟨h1, h2⟩

/-- Witness for C4: the 2049-byte file declaring `image_offset = 2049` and
`user_size = 1` decodes with film info present and a 1-byte user info. -/
theorem parse_header_user_info_length_witness :
    (∃ f, userHdr.film_info = some f) ∧
      ∃ u, userHdr.user_info = some u ∧ u.length = userHdr.file_info.user_size :=
  parse_header_user_info_length userBuf userHdr rfl (by decide) (by decide)

/-- Claim C5: in the overflow-free range of unsigned 32-bit arithmetic, the
padded bit-depth-10 row size equals the specification formula
`4 * ceil(32 * ceil(samples*width/3) / 32)`. -/
theorem bytes_per_row_depth10_padded_matches_spec (s w : Nat)
    (hov : 32 * ((s * w + 2) / 3) + 31 < 4294967296) :
    bytes_per_row s 10 w true = specRowSize10 s w := by
  have hd := Nat.div_add_mod (s * w + 2) 3
  have hm : (s * w + 2) % 3 < 3 := Nat.mod_lt _ (by norm_num)
  simp only [bytes_per_row, mul32, add32, specRowSize10, ceilDiv, Bool.not_true,
    Bool.false_eq_true, if_false]
  rw [Nat.mod_eq_of_lt (show s * w < 4294967296 by omega)]
  rw [Nat.mod_eq_of_lt (show s * w + 2 < 4294967296 by omega)]
  rw [Nat.mod_eq_of_lt (show 32 * ((s * w + 2) / 3) < 4294967296 by omega)]
  rw [Nat.mod_eq_of_lt (show 32 * ((s * w + 2) / 3) + 31 < 4294967296 from hov)]
  rw [Nat.mod_eq_of_lt (show 4 * ((32 * ((s * w + 2) / 3) + 31) / 32) < 4294967296 by omega)]
  omega

/-- Witness for C5: for bit depth 10, width 1920, 3 samples per pixel, padded,
the computed row size is 7680 bytes. -/
theorem bytes_per_row_depth10_padded_matches_spec_witness :
    32 * ((3 * 1920 + 2) / 3) + 31 < 4294967296 ∧
    bytes_per_row 3 10 1920 true = 7680 :=
  ⟨by norm_num,
    (bytes_per_row_depth10_padded_matches_spec 3 1920 (by norm_num)).trans (by decide)⟩

/-- Counterexample to claim C6 as stated: at samples = 1, width = 1, the code
returns 2 while `2 * ceil((1*1*16 + 8) / 16)` with ceiling division is 4; the
code's division here is a floor division, not a ceiling division. -/
theorem bytes_per_row_depth16_not_ceiling :
    bytes_per_row 1 16 1 true = 2 ∧ specRowSize16 1 1 = 4 ∧ (2 : Nat) ≠ 4 :=
  ⟨by decide, by decide, by decide⟩

/-- Claim C6 as amended: in the overflow-free range, the bit-depth-16 row size
is `2 * ((samples*width*16 + 8) / 16)` with FLOOR division — equivalently
`2 * samples * width` — for every padding flag. -/
theorem bytes_per_row_depth16_floor (s w : Nat) (pad : Bool)
    (hov : s * w * 16 + 8 < 4294967296) :
    bytes_per_row s 16 w pad = 2 * ((s * w * 16 + 8) / 16) ∧
    bytes_per_row s 16 w pad = 2 * (s * w) := by
  simp only [bytes_per_row, mul32, add32]
  constructor <;> (generalize hgen : s * w = x at *; omega)

/-- Witness for the amended C6: at samples = 1, width = 1 the row size is 2. -/
theorem bytes_per_row_depth16_floor_witness :
    1 * 1 * 16 + 8 < 4294967296 ∧ bytes_per_row 1 16 1 true = 2 :=
  ⟨by norm_num, ((bytes_per_row_depth16_floor 1 1 true (by norm_num)).2).trans (by norm_num)⟩

/-- Counterexample to claim C7 as stated: the empty input is shorter than the
fixed pre-channel header size, yet `parse_header` fails with
`NotCineonImage` (from the magic check), not with the parser-error variant. -/
theorem parse_header_empty_not_parser_error :
    parse_header (sliceOfList []) = .error .NotCineonImage ∧
    CineonError.NotCineonImage ≠ CineonError.ParserError :=
  ⟨rfl, by decide⟩

/-- Claim C7 as amended: every input shorter than the 196-byte pre-channel
header region makes `parse_header` return an error (`NotCineonImage`,
`ParserError` or `StringConversion`) — never any header, partial or
otherwise. -/
theorem parse_header_short_input_errors (input : ByteSlice)
    (hlen : input.len < 196) :
    ∃ e, parse_header input = .error e := by
  cases hp : parse_header input with
  | error e => exact ⟨e, rfl⟩
  | ok h =>
    obtain ⟨r, hinner⟩ := parse_header_ok_inner hp
    have hbound := (parse_header_inner_facts hinner).2.1
    exfalso
    omega

/-- Witness for the amended C7: a 7-byte input beginning with the magic fails. -/
theorem parse_header_short_input_errors_witness :
    ∃ e, parse_header (sliceOfList [0x80, 0x2a, 0x5f, 0xd7, 0, 0, 0]) = .error e :=
  parse_header_short_input_errors (sliceOfList [0x80, 0x2a, 0x5f, 0xd7, 0, 0, 0]) (by decide)

/-- Counterexample to claim C8 as stated: on the 8-byte slot
`"\x00v1.0\x00\x00\x00"` the read succeeds and returns `"v1.0"` — the leading
NUL is trimmed as well, so the result is not the consumed bytes with only
trailing zero-padding removed. -/
theorem read_string_not_trailing_only_trim :
    isOkE (read_string 8 (sliceOfList [0, 118, 49, 46, 48, 0, 0, 0])) = true ∧
    stringOf (read_string 8 (sliceOfList [0, 118, 49, 46, 48, 0, 0, 0])) = [118, 49, 46, 48] ∧
    trimTrailingZeros [0, 118, 49, 46, 48, 0, 0, 0] = [0, 118, 49, 46, 48] ∧
    ([118, 49, 46, 48] : List Nat) ≠ [0, 118, 49, 46, 48] :=
  ⟨by decide, by decide, by decide, by decide⟩

/-- Claim C8 as amended: a fixed-width text read of `n` bytes fails with the
parser error when fewer than `n` bytes remain, fails with the distinct
string-conversion error when the bytes are not valid text, and otherwise
returns the consumed bytes with leading AND trailing zero-padding trimmed; in
particular the 8-byte slot `"v1.0\x00\x00\x00\x00"` decodes to exactly
`"v1.0"` with no embedded null bytes. -/
theorem read_string_behaviour :
    (∀ (c : Nat) (input : ByteSlice),
      read_string c input =
        if input.len < c then .error .ParserError
        else if validUtf8 (input.take c) then .ok (input.drop c, trimNulls (input.take c))
        else .error .StringConversion) ∧
    stringOf (read_string 8 (sliceOfList [118, 49, 46, 48, 0, 0, 0, 0])) = [118, 49, 46, 48] := by
  constructor
  · intro c input
    unfold read_string read_bytes
    by_cases hc : c ≤ input.len
    · rw [if_pos hc, if_neg (show ¬input.len < c by omega)]
    · rw [if_neg hc, if_pos (show input.len < c by omega)]
  · decide

/-- Witness for the amended C8: a 2-byte slot with a leading NUL decodes to the
single remaining letter. -/
theorem read_string_behaviour_witness :
    stringOf (read_string 2 (sliceOfList [0, 65])) = [65] := by
  rw [read_string_behaviour.1 2 (sliceOfList [0, 65])]
  decide

/-- Claim C9 (code bug at `parse_image_info`): the parser performs no range
validation of `number_of_elements`, although `header.rs` documents the field
as "(1-8)"; the all-default 2048-byte file decodes successfully with
`number_of_elements = 0`, outside the documented 1..8 range. -/
theorem parse_header_accepts_zero_number_of_elements :
    parse_header zeroBuf = .ok zeroHdr ∧
    zeroHdr.image_info.number_of_elements = 0 :=
  ⟨rfl, rfl⟩

/-- Claim C10: every successfully decoded header carries
`magic_number = 0x802A5FD7` exactly — `parse_file_info` stamps the constant
rather than decoding the field from the buffer. -/
theorem parse_header_magic_number_is_constant (input : ByteSlice) (h : Header)
    (hp : parse_header input = .ok h) :
    h.file_info.magic_number = 0x802A5FD7 := by
  obtain ⟨r, hinner⟩ := parse_header_ok_inner hp
  exact (parse_header_inner_facts hinner).1

/-- Witness for C10: the all-default file's decoded magic number is the
cookie. -/
theorem parse_header_magic_number_is_constant_witness :
    zeroHdr.file_info.magic_number = 0x802A5FD7 :=
  parse_header_magic_number_is_constant zeroBuf zeroHdr rfl

end Cineon
